import Mathlib

/-!
Verification of the ping-monitor repository (matejkadlec/ping-monitor).

The repository ships two parallel implementations of the monitor:
the legacy monolith ping_monitor.py and the modular package under src/
(core/ping_service.py, core/ping_monitor.py, gui/system_tray.py,
utils/statistics.py, utils/deviation_logger.py, utils/instance_lock.py).
Both are embedded below where they diverge; every definition is a direct
translation of the named Python function.

Latencies parsed by the monolith may be fractional (its regex accepts a
decimal part and the time-below-1ms case yields 0.5), so monolith
latencies are rationals; the modular service parses integers only, so its
latencies are naturals.
-/

namespace PingMonitorRepo

/-- Severity tag produced by the display classifiers
(ping_monitor.py format_ping_result and ping_service.py get tags). -/
inductive Severity where
  | excellent
  | good
  | bad
deriving DecidableEq, Repr

/-- Tray icon color: the possible values of current_status in both
ping_monitor.py (PingMonitor.current_status) and system_tray.py
(SystemTray.current_status). -/
inductive TrayColor where
  | green
  | red
  | neutral
deriving DecidableEq, Repr

/-- Window sample classification used inside
PingMonitor.update_tray_icon_status (strings "green", "yellow", "bad"). -/
inductive PingType where
  | green
  | yellow
  | bad
deriving DecidableEq, Repr

/-! ## Configuration (src/core/config.py and PingMonitor.__init__) -/

/-- PING_THRESHOLD = 60 (ms, for deviation logging); ping_monitor.py line 114
uses the same value for self.ping_threshold. -/
def pingThreshold : ℚ := 60

/-- PING_INTERVAL = 1 (seconds between pings) in both implementations. -/
def pingInterval : ℕ := 1

/-- PRESERVED_MINUTES = 10 in both implementations. -/
def preservedMinutes : ℕ := 10

/-- max_display_lines_per_server = int(preserved_minutes * (60 / ping_interval)).
With the configured values the float arithmetic is exact, so natural-number
arithmetic reproduces it. -/
def maxDisplayLinesPerServer : ℕ := preservedMinutes * (60 / pingInterval)

/-! ## The bounded deque

Both implementations store per-target histories in collections.deque
objects with a fixed maxlen: appending to a full deque silently evicts the
leftmost (oldest) element. -/

/-- One append to a deque with maxlen cap: if the deque is not yet full the
element goes at the right end; otherwise the leftmost element is evicted
first. -/
def appendBounded {α : Type} (cap : ℕ) (xs : List α) (x : α) : List α :=
  if xs.length < cap then xs ++ [x] else (xs.drop 1) ++ [x]

/-! ## Classifier

ping_monitor.py, PingMonitor.format_ping_result (lines 658-680): a missing
ping time displays TIMEOUT with status bad; otherwise status is excellent
below 40, good up to 60 inclusive, bad above 60. -/

/-- Severity assigned by format_ping_result in ping_monitor.py. -/
def formatPingStatus (pingTime : Option ℚ) : Severity :=
  match pingTime with
  | none => .bad
  | some t => if t < 40 then .excellent else if t ≤ 60 then .good else .bad

/-- ping_service.py, PingService get-ping-tag helper (lines 143-150):
the same bands over the integer ping time of a successful probe. -/
def getPingTag (pingTime : ℕ) : Severity :=
  if pingTime < 40 then .excellent else if pingTime ≤ 60 then .good else .bad

/-- Result record produced by PingService.ping_server in the modular
implementation: status success carries the parsed integer time; timeout and
error carry no time (time is None). -/
inductive ModResult where
  | success (t : ℕ)
  | timeout
  | error
deriving DecidableEq, Repr

/-- The time field of a modular result (None for timeout and error). -/
def ModResult.time : ModResult → Option ℕ
  | .success t => some t
  | .timeout => none
  | .error => none

/-- Severity tag assigned by PingService.format_ping_result: success uses
the band helper, timeout and error both get the bad tag. -/
def modFormatTag (r : ModResult) : Severity :=
  match r with
  | .success t => getPingTag t
  | .timeout => .bad
  | .error => .bad

/-! ## Deviation predicates

ping_monitor.py, PingMonitor.log_deviation (lines 682-703) writes a line
exactly when ping_time is None or ping_time >= self.ping_threshold.

src/core/ping_service.py, PingService.is_deviation (lines 152-158) instead
requires status == "success", a non-None time, and time strictly greater
than the threshold; core/ping_monitor.py gates both the deviation counter
and the deviation-log write on this predicate. -/

/-- Whether ping_monitor.py log_deviation writes the result to the
deviations file. -/
def logDeviationWrites (pingTime : Option ℚ) : Bool :=
  match pingTime with
  | none => true
  | some t => t ≥ pingThreshold

/-- PingService.is_deviation in the modular implementation (threshold
PING_THRESHOLD = 60, strict comparison, successes only). -/
def isDeviation (r : ModResult) : Bool :=
  match r with
  | .success t => t > 60
  | .timeout => false
  | .error => false

/-! ## Status aggregator, legacy monolith

ping_monitor.py, PingMonitor.update_tray_icon_status (lines 452-533),
mutating first_ping_received, current_status and the maxlen-10 deque
first_server_ping_history (oldest samples first). -/

/-- The tray-relevant state of the monolith PingMonitor for the primary
(first) server. -/
structure TrayState where
  firstPingReceived : Bool
  currentStatus : TrayColor
  history : List PingType
deriving DecidableEq, Repr

/-- Classification of one ping into the window sample kinds, as done
inline in update_tray_icon_status: None is bad (timeout), below 40 green,
up to 60 yellow, above 60 bad. -/
def classifyPing (pingTime : Option ℚ) : PingType :=
  match pingTime with
  | none => .bad
  | some t => if t < 40 then .green else if t ≤ 60 then .yellow else .bad

/-- required_samples = min(10, 10 // ping_interval) (line 498; Python floor
division). -/
def requiredSamples : ℕ := min 10 (10 / pingInterval)

/-- One call of PingMonitor.update_tray_icon_status with the primary
server ping time. On the very first ping the result alone decides the
color (None or above 60 red, otherwise green) and nothing enters the
history. Afterwards the classified sample is appended to the maxlen-10
deque; once the deque holds at least required_samples entries the last
required_samples entries decide: all yellow-or-bad forces red, else all
yellow-or-green forces green, else the current status is kept. -/
def updateTrayIconStatus (s : TrayState) (pingTime : Option ℚ) : TrayState :=
  if !s.firstPingReceived then
    let c : TrayColor :=
      match pingTime with
      | none => .red
      | some t => if t > 60 then .red else .green
    { s with currentStatus := c, firstPingReceived := true }
  else
    let hist := appendBounded 10 s.history (classifyPing pingTime)
    if hist.length ≥ requiredSamples then
      let recent := hist.drop (hist.length - requiredSamples)
      let allYellowOrRed := recent.all (fun p => p == .yellow || p == .bad)
      let allYellowOrGreen := recent.all (fun p => p == .yellow || p == .green)
      let newStatus : TrayColor :=
        if allYellowOrRed then .red
        else if allYellowOrGreen then .green
        else s.currentStatus
      { firstPingReceived := s.firstPingReceived
        currentStatus := newStatus
        history := hist }
    else
      { s with history := hist }

/-- The window of the last required_samples classified samples that one
update step examines (lines 500-502: the deque after the append, sliced
from the right). -/
def postWindow (s : TrayState) (pingTime : Option ℚ) : List PingType :=
  let hist := appendBounded 10 s.history (classifyPing pingTime)
  hist.drop (hist.length - requiredSamples)

/-! ## Status aggregator, modular package

src/gui/system_tray.py, SystemTray.update_icon_status (lines 127-154) and
SystemTray, calculate-status helper (lines 156-170). Only successful pings
enter the maxlen-10 history; the color comes from the fraction of recent
pings above 60 ms. The Python code compares high_pings / total_pings
against the float literal 0.3; for windows of at most ten samples every
attainable ratio other than 3/10 differs from 0.3 by far more than any
double rounding error, and 3/10 rounds to exactly the same double as the
literal 0.3, so the exact rational comparison below is faithful. -/

/-- The tray-relevant state of the modular SystemTray. -/
structure SysTrayState where
  currentStatus : TrayColor
  history : List ℕ
  firstPingReceived : Bool
deriving DecidableEq, Repr

/-- SystemTray calculate-status helper: neutral on empty history, red when
strictly more than 30 percent of the stored pings exceed 60 ms, green
otherwise. -/
def calculateStatus (hist : List ℕ) : TrayColor :=
  if hist.isEmpty then .neutral
  else
    let highPings := (hist.filter (fun p => p > 60)).length
    if highPings * 10 > 3 * hist.length then .red else .green

/-- One call of SystemTray.update_icon_status with the primary server
result: a successful result is appended to the history and marks the first
ping received; until a first success arrives the function returns without
touching the status; afterwards the recomputed status replaces the current
one when it differs. -/
def updateIconStatus (s : SysTrayState) (r : ModResult) : SysTrayState :=
  let s1 : SysTrayState :=
    match r with
    | .success t =>
        { s with history := appendBounded 10 s.history t, firstPingReceived := true }
    | _ => s
  if !s1.firstPingReceived then s1
  else
    let newStatus := calculateStatus s1.history
    if newStatus ≠ s1.currentStatus then { s1 with currentStatus := newStatus } else s1

/-! ## Probe primitive

ping_monitor.py, PingMonitor.ping_server (lines 591-629): runs the ping
subprocess and parses its stdout. The except clause catches only
subprocess.TimeoutExpired and subprocess.SubprocessError; an OSError such
as FileNotFoundError (ping executable missing) is outside that tuple and
escapes. The behaviour of the environment is abstracted as an outcome of the
subprocess.run call together with the parse of stdout. -/

/-- Parse-relevant content of the monolith ping output: the first regex
(accepting a decimal part) either matches with a value or does not, and
independently the literal string time-below-1ms may occur. -/
structure MonoOutput where
  regexTime : Option ℚ
  hasLtOneStr : Bool
deriving DecidableEq, Repr

/-- Outcome of the subprocess.run call inside the monolith ping_server. -/
inductive RunOutcome where
  | completed (returncode : ℤ) (out : MonoOutput)
  | timeoutExpired
  | subprocessError
  | osError
deriving DecidableEq, Repr

/-- PingMonitor.ping_server: Except.error marks a Python exception escaping
the function (raised past its boundary); Except.ok carries the returned
latency-or-None. -/
def pingServerMono (o : RunOutcome) : Except Unit (Option ℚ) :=
  match o with
  | .completed rc out =>
      if rc = 0 then
        match out.regexTime with
        | some t => .ok (some t)
        | none => if out.hasLtOneStr then .ok (some (1 / 2)) else .ok none
      else .ok none
  | .timeoutExpired => .ok none
  | .subprocessError => .ok none
  | .osError => .error ()

/-- Outcome of the subprocess.run call inside the modular
PingService.ping_server; its integer-only regex either matches or not, and
the final except clause catches every exception, so any exception
(timeout included via its dedicated clause) is an outcome here. -/
inductive ModRunOutcome where
  | completed (returncode : ℤ) (regexTime : Option ℕ)
  | timeoutExpired
  | otherException
deriving DecidableEq, Repr

/-- src/core/ping_service.py, PingService.ping_server (lines 51-95): always
returns a result record; zero returncode yields success (time 0 when the
regex fails to match), nonzero returncode and TimeoutExpired yield timeout,
any other exception yields error. -/
def pingServerMod (o : ModRunOutcome) : ModResult :=
  match o with
  | .completed rc rt =>
      if rc = 0 then
        match rt with
        | some t => .success t
        | none => .success 0
      else .timeout
  | .timeoutExpired => .timeout
  | .otherException => .error

/-! ## Statistics

ping_monitor.py, PingMonitor.ping_worker_thread (lines 763-769) updates
the per-server statistics from one result: only a non-None ping time is
appended to the maxlen-600 ping_times deque, and only a ping time strictly
above 60 increments the deviation counter (both updates live under the
not-None test).

src/utils/statistics.py, PingStatistics.add_ping_time (lines 24-33)
appends a non-None time and increments the counter whenever its
is_deviation flag is set, None time or not. -/

/-- Per-server mutable statistics (ping_times deque and deviation
counter). -/
structure ServerStats where
  pingTimes : List ℚ
  deviationCount : ℕ
deriving DecidableEq, Repr

/-- The statistics update performed for one result by the monolith
ping_worker_thread. -/
def workerUpdateStats (s : ServerStats) (pingTime : Option ℚ) : ServerStats :=
  match pingTime with
  | none => s
  | some t =>
      { pingTimes := appendBounded maxDisplayLinesPerServer s.pingTimes t
        deviationCount := if t > 60 then s.deviationCount + 1 else s.deviationCount }

/-- PingStatistics.add_ping_time in the modular package (max_samples
default 600). -/
def addPingTime (s : ServerStats) (pingTime : Option ℚ) (isDev : Bool) : ServerStats :=
  { pingTimes :=
      match pingTime with
      | some t => appendBounded 600 s.pingTimes t
      | none => s.pingTimes
    deviationCount := if isDev then s.deviationCount + 1 else s.deviationCount }

/-- PingStatistics.get_average_ping: zero on an empty history, otherwise
the mean of the stored times. The monolith gui_update_worker computes the
same sum-over-length average from its ping_times deque. -/
def getAveragePing (s : ServerStats) : ℚ :=
  if s.pingTimes.isEmpty then 0
  else (s.pingTimes.sum) / (s.pingTimes.length : ℚ)

/-! ## Deviation-log cleanup

A log line is abstracted to the outcome of the timestamp extraction the
cleanup code performs on it; datetimes are modelled as seconds on an
absolute timeline, so timedelta(hours=24) is 86400.

ping_monitor.py, PingMonitor.cleanup_deviations_file (lines 705-734):
missing file is an early return; otherwise the first 19 characters of a line
go through strptime, parse failure keeps the line, and a parsed line is
kept exactly when its time is at or after now minus 24 hours.

src/utils/deviation_logger.py, DeviationLogger.cleanup_deviations_file
(lines 34-69): missing file is an early return; a line is examined only if
it starts with an opening bracket and contains the bracket-space
separator, in which case a strptime failure keeps it and a parsed time is
kept exactly when strictly after now minus retention_hours (default 24);
a line failing the bracket test falls through the if without being
appended, so it is dropped. -/

/-- A monolith deviations-file line, abstracted to the strptime result of
its first 19 characters (none when strptime raises). -/
structure MonoLogLine where
  ts : Option ℤ
deriving DecidableEq, Repr

/-- A modular deviations-file line: whether it passes the bracket-format
test, and the strptime result of the extracted field when it does. -/
structure ModLogLine where
  bracketed : Bool
  ts : Option ℤ
deriving DecidableEq, Repr

/-- PingMonitor.cleanup_deviations_file over the abstract file contents
(none models a missing file). -/
def cleanupMono (now : ℤ) (file : Option (List MonoLogLine)) :
    Option (List MonoLogLine) :=
  match file with
  | none => none
  | some lines =>
      some (lines.filter (fun l =>
        match l.ts with
        | some t => t ≥ now - 86400
        | none => true))

/-- DeviationLogger.cleanup_deviations_file over the abstract file
contents. -/
def cleanupMod (now : ℤ) (file : Option (List ModLogLine)) :
    Option (List ModLogLine) :=
  match file with
  | none => none
  | some lines =>
      some (lines.filter (fun l =>
        if l.bracketed then
          match l.ts with
          | some t => t > now - 86400
          | none => true
        else false))

/-! ## Single-instance lock

src/utils/instance_lock.py (identical logic at the top of
ping_monitor.py): is_already_running (lines 34-69) reads the lock file,
parses its content as an integer PID, and reports an instance running only
when that PID is alive and its process name, lowercased, contains the
substring python; on every other path it rewrites the lock file with its
own PID, sets the module flag IS_MAIN_INSTANCE, and reports not running.
cleanup_lock_file (lines 20-31) removes the lock file only when
IS_MAIN_INSTANCE is set.

Process names are modelled as character lists; the Python substring test
name.lower() contains python is the list-level occurrence check below. -/

/-- Whether the character list needle occurs contiguously inside hay. -/
def containsSub (hay needle : List Char) : Bool :=
  (List.range (hay.length + 1)).any (fun i => needle.isPrefixOf (hay.drop i))

/-- The Python test: the lowercased process name contains python. -/
def nameLooksPython (name : List Char) : Bool :=
  containsSub (name.map Char.toLower) ("python".toList)

/-- Environment one launch of is_already_running observes: the lock file
content after integer parsing (none models a missing file, some none an
unparseable content), PID liveness as psutil.pid_exists reports it, the
process name psutil.Process(pid).name() returns (none models
NoSuchProcess raised between the two calls), the own PID of this process, and
whether some OS call in the body raises (the outer except clause). -/
structure LockEnv where
  lockContents : Option (Option ℕ)
  pidAlive : ℕ → Bool
  procName : ℕ → Option (List Char)
  myPid : ℕ
  ioError : Bool

/-- What one call of is_already_running leaves behind: its return value,
the lock file afterwards (same encoding as LockEnv.lockContents), and the
IS_MAIN_INSTANCE flag afterwards. -/
structure LockResult where
  alreadyRunning : Bool
  lockAfter : Option (Option ℕ)
  isMainAfter : Bool
deriving Repr

/-- is_already_running, started with the given IS_MAIN_INSTANCE value
(False at module load). The running report leaves the file and the flag
untouched; every fall-through path writes the own PID and raises the flag;
an exception in the body is swallowed, reporting not running without
writing. -/
def isAlreadyRunning (env : LockEnv) (isMainBefore : Bool) : LockResult :=
  if env.ioError then
    { alreadyRunning := false, lockAfter := env.lockContents, isMainAfter := isMainBefore }
  else
    let claim : LockResult :=
      { alreadyRunning := false
        lockAfter := some (some env.myPid)
        isMainAfter := true }
    match env.lockContents with
    | some (some pid) =>
        if env.pidAlive pid then
          match env.procName pid with
          | some name =>
              if nameLooksPython name then
                { alreadyRunning := true
                  lockAfter := env.lockContents
                  isMainAfter := isMainBefore }
              else claim
          | none => claim
        else claim
    | _ => claim

/-- cleanup_lock_file: removes the lock file only when IS_MAIN_INSTANCE is
set and the file exists. -/
def cleanupLockFile (isMain : Bool) (lockFile : Option (Option ℕ)) :
    Option (Option ℕ) :=
  if isMain && lockFile.isSome then none else lockFile

/-- A concrete launch environment: the lock file names PID 42, that PID is
alive, and its process is a Python interpreter. -/
def livePythonEnv : LockEnv :=
  { lockContents := some (some 42)
    pidAlive := fun p => p == 42
    procName := fun _ => some ("Python3.exe".toList)
    myPid := 7
    ioError := false }

/-- A concrete launch environment: the lock file names PID 42, that PID is
alive, but its executable name does not contain python (for instance the
monitor packaged as a standalone executable). -/
def liveNonPythonEnv : LockEnv :=
  { lockContents := some (some 42)
    pidAlive := fun p => p == 42
    procName := fun _ => some ("ping_monitor.exe".toList)
    myPid := 7
    ioError := false }

/-! ## Helper lemmas -/

/-- A run of bounded appends starting from any admissible accumulator keeps
the suffix of the combined stream that fits the capacity. -/
theorem foldl_appendBounded_drop {α : Type} (cap : ℕ) (hc : 0 < cap) :
    ∀ (ys : List α) (acc : List α), acc.length ≤ cap →
      ys.foldl (appendBounded cap) acc = (acc ++ ys).drop ((acc.length + ys.length) - cap) := by
  intro ys
  induction ys with
  | nil =>
    intro acc hacc
    have h0 : acc.length - cap = 0 := by omega
    simp [h0]
  | cons x ys ih =>
    intro acc hacc
    rw [List.foldl_cons]
    by_cases hlt : acc.length < cap
    · have hstep : appendBounded cap acc x = acc ++ [x] := by
        unfold appendBounded; simp [hlt]
      rw [hstep, ih (acc ++ [x]) (by simp; omega)]
      have hl : (acc ++ [x]) ++ ys = acc ++ x :: ys := by simp
      rw [hl]
      congr 1
      simp
      omega
    · have hcapeq : acc.length = cap := le_antisymm hacc (not_lt.mp hlt)
      have hstep : appendBounded cap acc x = acc.drop 1 ++ [x] := by
        unfold appendBounded; simp [hlt]
      have hlen2 : (acc.drop 1 ++ [x]).length ≤ cap := by
        simp [List.length_drop]; omega
      rw [hstep, ih _ hlen2]
      have h1 : (acc.drop 1 ++ [x]) ++ ys = (acc ++ x :: ys).drop 1 := by
        rw [List.append_assoc, List.drop_append_of_le_length (by omega)]
        simp
      rw [h1, List.drop_drop]
      congr 1
      simp [List.length_drop]
      omega

/-- Specialisation to the empty initial deque. -/
theorem foldl_appendBounded_from_nil {α : Type} (cap : ℕ) (hc : 0 < cap) (ys : List α) :
    ys.foldl (appendBounded cap) [] = ys.drop (ys.length - cap) := by
  have h := foldl_appendBounded_drop cap hc ys [] (by simp)
  simpa using h

/-! ## Claims -/

/-- C3: for every successful probe with latency L the classification is
Excellent iff L < 40, Good iff 40 ≤ L ≤ 60, Bad iff L > 60, and every
timeout or error classifies as Bad — in the monolith format_ping_result
(rational latencies, None for failure) and in the modular
PingService band helper and format_ping_result (integer latencies,
timeout and error tagged bad). -/
theorem classifier_bands :
    (∀ L : ℚ, (formatPingStatus (some L) = .excellent ↔ L < 40)
      ∧ (formatPingStatus (some L) = .good ↔ 40 ≤ L ∧ L ≤ 60)
      ∧ (formatPingStatus (some L) = .bad ↔ 60 < L))
    ∧ formatPingStatus none = .bad
    ∧ (∀ L : ℕ, (getPingTag L = .excellent ↔ L < 40)
      ∧ (getPingTag L = .good ↔ 40 ≤ L ∧ L ≤ 60)
      ∧ (getPingTag L = .bad ↔ 60 < L))
    ∧ modFormatTag .timeout = .bad ∧ modFormatTag .error = .bad := by
  refine ⟨fun L => ⟨?_, ?_, ?_⟩, rfl, fun L => ⟨?_, ?_, ?_⟩, rfl, rfl⟩ <;>
    · simp only [formatPingStatus, getPingTag]
      split_ifs with h1 h2 <;> simp_all <;> linarith

/-- C4 counterexample: in the modular implementation
(PingService.is_deviation, which gates the deviation-counter increment and
the deviation-log write in core/ping_monitor.py), a successful result at
exactly the 60 ms threshold is NOT a deviation, and neither is a timeout
or an error — while the claim asserts latency at the threshold and every
non-Success outcome count as deviations. The last conjunct shows the same
60 ms result IS written by the monolith log_deviation, so the two cited
implementations disagree. -/
theorem deviation_at_threshold_not_counted_modular :
    isDeviation (.success 60) = false
    ∧ isDeviation .timeout = false
    ∧ isDeviation .error = false
    ∧ logDeviationWrites (some 60) = true := by decide

/-- C4 amended: the monolith log_deviation writes a result iff its latency
is None (timeout/error) or at least the 60 ms threshold; the modular
PingService.is_deviation instead holds iff the result is a success with
latency strictly above 60 ms, so there timeouts, errors and
exact-threshold successes are not deviations. -/
theorem deviation_predicates_amended :
    (∀ pt : Option ℚ,
      logDeviationWrites pt = true ↔ (pt = none ∨ ∃ t, pt = some t ∧ pingThreshold ≤ t))
    ∧ (∀ r : ModResult, isDeviation r = true ↔ ∃ t, r = .success t ∧ 60 < t) := by
  constructor
  · intro pt
    cases pt with
    | none => simp [logDeviationWrites]
    | some t => simp [logDeviationWrites, pingThreshold]
  · intro r
    cases r with
    | success t => simp [isDeviation]
    | timeout => simp [isDeviation]
    | error => simp [isDeviation]

/-- C5: per-target result and latency histories are deques with maxlen
capacity = preserved-minutes times 60 over the interval (600 with the
configured values); a sequence of insertions from empty never exceeds the
capacity, and after capacity + 1 insertions the history is exactly the
insertions with the first one evicted, in insertion order. -/
theorem rolling_history_bounded_fifo :
    maxDisplayLinesPerServer = 600
    ∧ ∀ (cap : ℕ), 0 < cap → ∀ (ys : List ℚ),
        (ys.foldl (appendBounded cap) []).length ≤ cap
        ∧ (ys.length = cap + 1 → ys.foldl (appendBounded cap) [] = ys.drop 1) := by
  refine ⟨rfl, fun cap hc ys => ⟨?_, ?_⟩⟩
  · rw [foldl_appendBounded_from_nil cap hc]
    simp [List.length_drop]
    omega
  · intro hl
    rw [foldl_appendBounded_from_nil cap hc, hl]
    congr 1
    omega

/-- C5 witness: at capacity 2, inserting three samples keeps the bound and
evicts exactly the first sample. -/
theorem rolling_history_bounded_fifo_witness :
    (([1, 2, 3] : List ℚ).foldl (appendBounded 2) []).length ≤ 2
    ∧ ([1, 2, 3] : List ℚ).foldl (appendBounded 2) [] = [2, 3] := by
  have h := rolling_history_bounded_fifo.2 2 (by norm_num) [1, 2, 3]
  exact ⟨h.1, by simpa using h.2 rfl⟩

/-- Helper: once the first ping has been received and the post-append deque
holds at least required_samples entries, the new current status is the
if-elif chain of update_tray_icon_status over the window. -/
theorem updateTray_steady (s : TrayState) (pt : Option ℚ)
    (hfirst : s.firstPingReceived = true)
    (hlen : requiredSamples ≤ (appendBounded 10 s.history (classifyPing pt)).length) :
    (updateTrayIconStatus s pt).currentStatus =
      (if (postWindow s pt).all (fun p => p == .yellow || p == .bad) then .red
       else if (postWindow s pt).all (fun p => p == .yellow || p == .green) then .green
       else s.currentStatus) := by
  unfold updateTrayIconStatus postWindow
  rw [hfirst]
  simp only [Bool.not_true, Bool.false_eq_true, if_false, ge_iff_le, hlen, if_true, if_pos]

/-- C1 counterexample: the claim as stated is false at a window of ten
yellow samples. Starting from status green with nine yellow samples in
history, one update step with a 50 ms ping builds an all-yellow window;
every sample in that window is yellow or green and none is bad, so the
claim requires Green, but the code checks the all-yellow-or-bad rule
first and turns the status Red. -/
theorem hysteresis_all_yellow_window_forces_red :
    postWindow ⟨true, .green, List.replicate 9 .yellow⟩ (some 50)
      = List.replicate 10 .yellow
    ∧ (∀ p ∈ List.replicate 10 PingType.yellow, p = .yellow ∨ p = .green)
    ∧ (updateTrayIconStatus ⟨true, .green, List.replicate 9 .yellow⟩ (some 50)).currentStatus
      = .red
    ∧ TrayColor.red ≠ .green := by decide

/-- C1 amended: for the primary-target aggregator in ping_monitor.py, once
at least N = min(10, 10 div interval) samples have been seen, one update
step over the window of the last N samples yields Red when every sample is
bad or yellow (none green), yields Green when every sample is yellow or
green AND at least one is green (the all-yellow window falls to the Red
rule, which is checked first), and keeps the previous status exactly when
the window contains both a green and a bad sample. -/
theorem hysteresis_amended (s : TrayState) (pt : Option ℚ)
    (hfirst : s.firstPingReceived = true)
    (hlen : requiredSamples ≤ (appendBounded 10 s.history (classifyPing pt)).length) :
    ((∀ p ∈ postWindow s pt, p = .yellow ∨ p = .bad) →
      (updateTrayIconStatus s pt).currentStatus = .red)
    ∧ ((∃ p ∈ postWindow s pt, p = .green) →
      (∀ p ∈ postWindow s pt, p = .yellow ∨ p = .green) →
      (updateTrayIconStatus s pt).currentStatus = .green)
    ∧ ((∃ p ∈ postWindow s pt, p = .green) → (∃ p ∈ postWindow s pt, p = .bad) →
      (updateTrayIconStatus s pt).currentStatus = s.currentStatus) := by
  rw [updateTray_steady s pt hfirst hlen]
  refine ⟨?_, ?_, ?_⟩
  · intro hall
    rw [if_pos]
    rw [List.all_eq_true]
    intro p hp
    rcases hall p hp with h | h <;> simp [h]
  · rintro ⟨g, hg, hgreen⟩ hall
    rw [if_neg, if_pos]
    · rw [List.all_eq_true]
      intro p hp
      rcases hall p hp with h | h <;> simp [h]
    · rw [List.all_eq_true]
      intro hc
      have := hc g hg
      rw [hgreen] at this
      simp at this
  · rintro ⟨g, hg, hgreen⟩ ⟨b, hb, hbad⟩
    rw [if_neg, if_neg]
    · rw [List.all_eq_true]
      intro hc
      have := hc b hb
      rw [hbad] at this
      simp at this
    · rw [List.all_eq_true]
      intro hc
      have := hc g hg
      rw [hgreen] at this
      simp at this

/-- C1 witness: a genuinely mixed ten-sample window (alternating green and
bad, new bad sample) keeps the previous Red status. -/
theorem hysteresis_amended_witness :
    (∃ p ∈ postWindow
        ⟨true, .red, [.green, .bad, .green, .bad, .green, .bad, .green, .bad, .green]⟩
        (some 70), p = .green)
    ∧ (∃ p ∈ postWindow
        ⟨true, .red, [.green, .bad, .green, .bad, .green, .bad, .green, .bad, .green]⟩
        (some 70), p = .bad)
    ∧ (updateTrayIconStatus
        ⟨true, .red, [.green, .bad, .green, .bad, .green, .bad, .green, .bad, .green]⟩
        (some 70)).currentStatus = .red := by
  have h := hysteresis_amended
    ⟨true, .red, [.green, .bad, .green, .bad, .green, .bad, .green, .bad, .green]⟩
    (some 70) rfl (by decide)
  exact ⟨by decide, by decide, h.2.2 (by decide) (by decide)⟩

/-- C2 counterexample: in the modular SystemTray (the second code place the
claim is drawn from), a first-ever failure does not decide the status: a
timeout before any history exists records nothing, leaves
first_ping_received unset and keeps the icon neutral, while the claim
requires an immediate Red. -/
theorem bootstrap_modular_first_timeout_stays_neutral :
    updateIconStatus ⟨.neutral, [], false⟩ .timeout = ⟨.neutral, [], false⟩
    ∧ (updateIconStatus ⟨.neutral, [], false⟩ .timeout).currentStatus ≠ .red := by decide

/-- C2 amended: in ping_monitor.py the first-ever result alone decides the
status exactly as claimed: a missing latency (timeout or error) or a
latency above 60 yields Red, anything else yields Green, the history stays
empty and the first-ping flag is raised. In the modular SystemTray a
first-ever successful result also decides immediately (above 60 Red,
otherwise Green), but a first-ever timeout or error changes nothing, so
there a failure does not bootstrap the status. -/
theorem bootstrap_amended :
    (∀ (c : TrayColor) (h : List PingType) (pt : Option ℚ),
      updateTrayIconStatus ⟨false, c, h⟩ pt =
        ⟨true,
         (match pt with
          | none => TrayColor.red
          | some t => if t > 60 then .red else .green),
         h⟩)
    ∧ (∀ t : ℕ, (updateIconStatus ⟨.neutral, [], false⟩ (.success t)).currentStatus =
        if t > 60 then .red else .green)
    ∧ updateIconStatus ⟨.neutral, [], false⟩ .timeout = ⟨.neutral, [], false⟩
    ∧ updateIconStatus ⟨.neutral, [], false⟩ .error = ⟨.neutral, [], false⟩ := by
  refine ⟨fun c h pt => ?_, fun t => ?_, by decide, by decide⟩
  · simp [updateTrayIconStatus]
  · simp [updateIconStatus, calculateStatus, appendBounded]
    by_cases ht : t > 60 <;> simp [ht]

/-- C6 counterexample: in ping_monitor.py, ping_server catches only
subprocess.TimeoutExpired and subprocess.SubprocessError; an OS error such
as FileNotFoundError when the ping executable is missing is outside that
tuple, so the exception escapes the function instead of being normalized
to a timeout or error result. -/
theorem ping_server_mono_os_error_escapes :
    pingServerMono .osError = .error () := rfl

/-- C6 amended: the modular PingService.ping_server is total — every
failure mode (nonzero exit, timeout, any other exception) returns a normal
timeout or error result whose time is None. The monolith ping_server
returns normally on every outcome except an OS error such as a missing
ping executable, which escapes it; its caught failures normalize to a
None latency. -/
theorem probe_totality_amended :
    (∀ o : ModRunOutcome,
      (pingServerMod o = .timeout ∨ pingServerMod o = .error) → (pingServerMod o).time = none)
    ∧ pingServerMod .timeoutExpired = .timeout
    ∧ pingServerMod .otherException = .error
    ∧ (∀ (rc : ℤ) (rt : Option ℕ), rc ≠ 0 → pingServerMod (.completed rc rt) = .timeout)
    ∧ (∀ o : RunOutcome, o ≠ .osError → ∃ v, pingServerMono o = .ok v)
    ∧ pingServerMono .timeoutExpired = .ok none
    ∧ pingServerMono .subprocessError = .ok none := by
  refine ⟨?_, rfl, rfl, ?_, ?_, rfl, rfl⟩
  · intro o h
    rcases h with h | h <;> rw [h] <;> rfl
  · intro rc rt hrc
    simp [pingServerMod, hrc]
  · intro o ho
    cases o with
    | completed rc out =>
      by_cases hrc : rc = 0
      · cases hout : out.regexTime with
        | some t => exact ⟨some t, by simp [pingServerMono, hrc, hout]⟩
        | none =>
          by_cases hlt : out.hasLtOneStr
          · exact ⟨some (1 / 2), by simp [pingServerMono, hrc, hout, hlt]⟩
          · exact ⟨none, by simp [pingServerMono, hrc, hout, hlt]⟩
      · exact ⟨none, by simp [pingServerMono, hrc]⟩
    | timeoutExpired => exact ⟨none, rfl⟩
    | subprocessError => exact ⟨none, rfl⟩
    | osError => exact absurd rfl ho

/-- C6 witness: the timeout and nonzero-exit failure modes at concrete
inputs. -/
theorem probe_totality_amended_witness :
    (pingServerMod .timeoutExpired).time = none
    ∧ pingServerMod (.completed 1 none) = .timeout
    ∧ ∃ v, pingServerMono .timeoutExpired = .ok v := by
  refine ⟨?_, ?_, ?_⟩
  · exact probe_totality_amended.1 .timeoutExpired (Or.inl probe_totality_amended.2.1)
  · exact probe_totality_amended.2.2.2.1 1 none (by norm_num)
  · exact probe_totality_amended.2.2.2.2.1 .timeoutExpired (by decide)

/-- C7 counterexample: in the monolith ping_worker_thread a timeout result
qualifies as a deviation (log_deviation writes it to the deviations file)
yet leaves the per-server statistics, the deviation counter included,
completely unchanged — the counter increment sits under the non-None test
and the strict 60 ms comparison. -/
theorem worker_timeout_deviation_not_counted :
    logDeviationWrites none = true
    ∧ workerUpdateStats ⟨[], 0⟩ none = ⟨[], 0⟩
    ∧ (workerUpdateStats ⟨[], 0⟩ none).deviationCount = 0 := by decide

/-- C7 amended: the rolling average is indeed computed over exactly the
latencies of successful probes — a None latency changes neither the
sample deque nor the average, in the monolith worker and in
PingStatistics.add_ping_time alike. But only PingStatistics.add_ping_time
counts a flagged timeout toward the deviation counter; the monolith worker
increments the counter exactly for successful pings strictly above 60 ms,
and the modular pipeline never flags a timeout or error as a deviation at
all. -/
theorem statistics_amended :
    (∀ s : ServerStats, workerUpdateStats s none = s)
    ∧ (∀ (s : ServerStats) (b : Bool), (addPingTime s none b).pingTimes = s.pingTimes)
    ∧ (∀ (s : ServerStats) (b : Bool), getAveragePing (addPingTime s none b) = getAveragePing s)
    ∧ (∀ s : ServerStats, (addPingTime s none true).deviationCount = s.deviationCount + 1)
    ∧ (∀ (s : ServerStats) (t : ℚ), 60 < t →
        (workerUpdateStats s (some t)).deviationCount = s.deviationCount + 1)
    ∧ (∀ (s : ServerStats) (t : ℚ), t ≤ 60 →
        (workerUpdateStats s (some t)).deviationCount = s.deviationCount)
    ∧ (∀ (s : ServerStats) (t : ℚ),
        (workerUpdateStats s (some t)).pingTimes
          = appendBounded maxDisplayLinesPerServer s.pingTimes t)
    ∧ isDeviation .timeout = false ∧ isDeviation .error = false := by
  refine ⟨fun s => rfl, fun s b => rfl, fun s b => ?_, fun s => ?_, fun s t ht => ?_,
    fun s t ht => ?_, fun s t => rfl, rfl, rfl⟩
  · simp [getAveragePing, addPingTime]
  · simp [addPingTime]
  · simp [workerUpdateStats, ht]
  · simp [workerUpdateStats, not_lt.mpr ht]

/-- C7 witness: concrete updates — a flagged None sample counts in
add_ping_time without moving the average, a 70 ms success increments the
worker counter, a 20 ms success does not. -/
theorem statistics_amended_witness :
    getAveragePing (addPingTime ⟨[20], 0⟩ none true) = getAveragePing ⟨[20], 0⟩
    ∧ (addPingTime ⟨[20], 0⟩ none true).deviationCount = 1
    ∧ (workerUpdateStats ⟨[], 0⟩ (some 70)).deviationCount = 1
    ∧ (workerUpdateStats ⟨[], 0⟩ (some 20)).deviationCount = 0 := by
  refine ⟨statistics_amended.2.2.1 ⟨[20], 0⟩ true, statistics_amended.2.2.2.1 ⟨[20], 0⟩,
    statistics_amended.2.2.2.2.1 ⟨[], 0⟩ 70 (by norm_num),
    statistics_amended.2.2.2.2.2.1 ⟨[], 0⟩ 20 (by norm_num)⟩

/-- C8 counterexample: the modular DeviationLogger cleanup silently drops a
line whose timestamp extraction fails the bracket-format test — the line
falls through the if without being appended — while the claim requires
every line with an unparseable timestamp to be retained. -/
theorem cleanup_modular_drops_unparseable_line :
    cleanupMod 0 (some [⟨false, none⟩]) = some []
    ∧ some ([] : List ModLogLine) ≠ some [⟨false, none⟩] := by decide

/-- C8 amended: a missing file is a no-op for both cleanups. The monolith
cleanup keeps exactly the lines whose parsed timestamp is within the last
24 hours (at or after now minus 86400 s) plus every line whose timestamp
fails to parse, in order (the result is a sublist of the input); a 25-hour
old entry is removed and a 23-hour old entry retained. The modular cleanup
behaves the same on bracket-formatted lines (with a strict cutoff
comparison), but drops any line that fails the bracket-format test instead
of retaining it. -/
theorem cleanup_retention_amended :
    (∀ now : ℤ, cleanupMono now none = none ∧ cleanupMod now none = none)
    ∧ (∀ (now : ℤ) (lines : List MonoLogLine), ∃ kept,
        cleanupMono now (some lines) = some kept
        ∧ List.Sublist kept lines
        ∧ ∀ l, l ∈ kept ↔ l ∈ lines ∧ (l.ts = none ∨ ∃ t, l.ts = some t ∧ now - 86400 ≤ t))
    ∧ (∀ now : ℤ,
        cleanupMono now (some [⟨some (now - 90000)⟩, ⟨some (now - 82800)⟩, ⟨none⟩])
          = some [⟨some (now - 82800)⟩, ⟨none⟩])
    ∧ (∀ now : ℤ,
        cleanupMod now
            (some [⟨true, some (now - 90000)⟩, ⟨true, some (now - 82800)⟩, ⟨true, none⟩])
          = some [⟨true, some (now - 82800)⟩, ⟨true, none⟩]) := by
  refine ⟨fun now => ⟨rfl, rfl⟩, fun now lines => ?_, fun now => ?_, fun now => ?_⟩
  · refine ⟨_, rfl, List.filter_sublist _, fun l => ?_⟩
    rw [List.mem_filter]
    constructor
    · rintro ⟨hm, hp⟩
      refine ⟨hm, ?_⟩
      cases hl : l.ts with
      | none => exact Or.inl rfl
      | some t =>
        rw [hl] at hp
        simp at hp
        exact Or.inr ⟨t, rfl, by omega⟩
    · rintro ⟨hm, hor⟩
      refine ⟨hm, ?_⟩
      rcases hor with hnone | ⟨t, hts, hle⟩
      · rw [hnone]
      · rw [hts]
        simpa using hle
  · have h1 : ¬ (now - 90000 ≥ now - 86400) := by omega
    have h2 : now - 82800 ≥ now - 86400 := by omega
    simp [cleanupMono, List.filter, h1, h2]
  · have h1 : ¬ (now - 90000 > now - 86400) := by omega
    have h2 : now - 82800 > now - 86400 := by omega
    simp [cleanupMod, List.filter, h1, h2]

/-- C9 counterexample: the lock file names PID 42, which is alive, but its
process name contains no python substring — is_already_running then falls
through, reports no instance running, and overwrites the lock file with
its own PID 7, while the claim requires it to report running and leave the
file unchanged regardless of executable-name quirks. -/
theorem lock_live_nonpython_pid_overwritten :
    liveNonPythonEnv.lockContents = some (some 42)
    ∧ liveNonPythonEnv.pidAlive 42 = true
    ∧ (isAlreadyRunning liveNonPythonEnv false).alreadyRunning = false
    ∧ (isAlreadyRunning liveNonPythonEnv false).lockAfter = some (some 7) := by decide

/-- C9 amended: is_already_running reports an instance running — leaving
the lock file and the main-instance flag untouched — only when the lock
file holds the decimal PID of a live process whose lowercased name
contains python; when the PID is live but the name check fails, and when
the file is absent, unparseable, or names a dead PID, it overwrites the
lock file with its own PID, raises the flag, and reports not running. -/
theorem instance_lock_amended (env : LockEnv) (m : Bool) (hio : env.ioError = false) :
    (∀ (pid : ℕ) (name : List Char), env.lockContents = some (some pid) →
      env.pidAlive pid = true → env.procName pid = some name → nameLooksPython name = true →
      isAlreadyRunning env m = ⟨true, env.lockContents, m⟩)
    ∧ (∀ (pid : ℕ) (name : List Char), env.lockContents = some (some pid) →
      env.pidAlive pid = true → env.procName pid = some name → nameLooksPython name = false →
      isAlreadyRunning env m = ⟨false, some (some env.myPid), true⟩)
    ∧ (env.lockContents = none →
      isAlreadyRunning env m = ⟨false, some (some env.myPid), true⟩)
    ∧ (env.lockContents = some none →
      isAlreadyRunning env m = ⟨false, some (some env.myPid), true⟩)
    ∧ (∀ pid : ℕ, env.lockContents = some (some pid) → env.pidAlive pid = false →
      isAlreadyRunning env m = ⟨false, some (some env.myPid), true⟩) := by
  refine ⟨?_, ?_, ?_, ?_, ?_⟩
  · intro pid name hc ha hn hpy
    simp [isAlreadyRunning, hio, hc, ha, hn, hpy]
  · intro pid name hc ha hn hpy
    simp [isAlreadyRunning, hio, hc, ha, hn, hpy]
  · intro hc
    simp [isAlreadyRunning, hio, hc]
  · intro hc
    simp [isAlreadyRunning, hio, hc]
  · intro pid hc ha
    simp [isAlreadyRunning, hio, hc, ha]

/-- C9 witness: with a live python-named holder the launch reports running
and changes nothing; with a live non-python-named holder it claims the
lock. -/
theorem instance_lock_amended_witness :
    isAlreadyRunning livePythonEnv false = ⟨true, some (some 42), false⟩
    ∧ isAlreadyRunning liveNonPythonEnv false = ⟨false, some (some 7), true⟩ := by
  constructor
  · have h := (instance_lock_amended livePythonEnv false rfl).1 42
      ("Python3.exe".toList) rfl (by decide) rfl (by decide)
    simpa using h
  · have h := (instance_lock_amended liveNonPythonEnv false rfl).2.1 42
      ("ping_monitor.exe".toList) rfl (by decide) rfl (by decide)
    simpa using h

/-- C10: starting from the module-load state (IS_MAIN_INSTANCE false), the
flag is raised by is_already_running only on the paths that wrote this
own PID of this process into the lock file, and a launch that reports another
instance running leaves the flag down, so its exit-time cleanup_lock_file
leaves the lock file of the running instance untouched. -/
theorem lock_ownership_invariant (env : LockEnv) :
    ((isAlreadyRunning env false).isMainAfter = true →
      (isAlreadyRunning env false).lockAfter = some (some env.myPid))
    ∧ ((isAlreadyRunning env false).alreadyRunning = true →
      (isAlreadyRunning env false).isMainAfter = false
      ∧ cleanupLockFile (isAlreadyRunning env false).isMainAfter
          (isAlreadyRunning env false).lockAfter
        = (isAlreadyRunning env false).lockAfter) := by
  unfold isAlreadyRunning
  by_cases hio : env.ioError
  · simp [hio, cleanupLockFile]
  · simp only [hio, if_false, Bool.false_eq_true]
    cases hc : env.lockContents with
    | none => simp
    | some inner =>
      cases inner with
      | none => simp
      | some pid =>
        by_cases ha : env.pidAlive pid
        · simp only [ha, if_true]
          cases hn : env.procName pid with
          | none => simp
          | some name =>
            by_cases hpy : nameLooksPython name
            · simp [hpy, cleanupLockFile]
            · simp [hpy]
        · simp [ha]

/-- C10 witness: in the live-python environment the second launch reports
running, keeps the flag down, and its cleanup leaves the lock file as it
found it. -/
theorem lock_ownership_invariant_witness :
    (isAlreadyRunning livePythonEnv false).isMainAfter = false
    ∧ cleanupLockFile (isAlreadyRunning livePythonEnv false).isMainAfter
        (isAlreadyRunning livePythonEnv false).lockAfter
      = (isAlreadyRunning livePythonEnv false).lockAfter :=
  (lock_ownership_invariant livePythonEnv).2 (by decide)

end PingMonitorRepo
